import Mathlib

/-!
TravelMate frontend — verification of the spec claims.

Shallow embedding of the browser-side client of the TravelMate travel
planning application: the configuration / rate limiter (`config.js`),
the API client with caching (`map-places.js`), the map places manager,
the feature functions (`features.js`) and the application shell.

Machine integers of the source (JS numbers used as millisecond
timestamps and counters) are modelled as `Nat`; JS falsy checks on
possibly-absent values are modelled with `Option`; fallible operations
return `Except`.
-/

namespace TravelMate

/-! ## Configuration (`src/frontend/config.js`) -/

/-- One per-category rate-limit record, as stored in `localStorage` under
`travelmate_<env>_rate_limit_<type>`: `{count, timestamp}`.
`JSON.parse` of the stored text, with a default of
`{count := 0, timestamp := 0}` when the key is absent. -/
structure RateData where
  count : Nat
  timestamp : Nat
  deriving Repr, DecidableEq

/-- The rate-limit portion of `localStorage`: one `RateData` per category
string, defaulting to `{count := 0, timestamp := 0}` (the `getItem` default). -/
def RLStore := String → RateData

/-- The pristine store: no key has ever been written. -/
def RLStore.empty : RLStore := fun _ => ⟨0, 0⟩

/-- The `Config` fields used by the API client.  `rateLimit c = none` models a
category absent from the `RATE_LIMIT` object (`this.RATE_LIMIT[type]` is
`undefined`). -/
structure ConfigModel where
  apiBaseURL : String
  cacheDuration : Nat
  requestTimeout : Nat
  rateLimit : String → Option Nat

/-- The `RATE_LIMIT` of the `development` configuration: `{search: 10, routes: 20}`.
There is no `general` entry. -/
def developmentRateLimit : String → Option Nat := fun t =>
  if t = "search" then some 10 else if t = "routes" then some 20 else none

/-- The `development` configuration object. -/
def developmentConfig : ConfigModel where
  apiBaseURL := "http://localhost:8088"
  cacheDuration := 5 * 60 * 1000
  requestTimeout := 10000
  rateLimit := developmentRateLimit

/-- The `RATE_LIMIT` of the `staging` configuration: `{search: 15, routes: 30}`. -/
def stagingRateLimit : String → Option Nat := fun t =>
  if t = "search" then some 15 else if t = "routes" then some 30 else none

/-- The `staging` configuration object. -/
def stagingConfig : ConfigModel where
  apiBaseURL := "https://api-staging.travelmate.app"
  cacheDuration := 15 * 60 * 1000
  requestTimeout := 8000
  rateLimit := stagingRateLimit

/-- The `RATE_LIMIT` of the `production` configuration: `{search: 20, routes: 50}`. -/
def productionRateLimit : String → Option Nat := fun t =>
  if t = "search" then some 20 else if t = "routes" then some 50 else none

/-- The `production` configuration object. -/
def productionConfig : ConfigModel where
  apiBaseURL := "https://api.travelmate.app"
  cacheDuration := 30 * 60 * 1000
  requestTimeout := 5000
  rateLimit := productionRateLimit

/-- Model of `Config.getEndpoint(path)`: prefix the base URL, inserting a `/` when
the path does not start with one. -/
def getEndpoint (cfg : ConfigModel) (path : String) : String :=
  cfg.apiBaseURL ++ (if path.data.head? = some '/' then path else "/" ++ path)

/-- Model of `Config.checkRateLimit(type)` (config.js lines 161-181).

Reads the stored `{count, timestamp}` for the category, resets it to
`{0, now}` when more than 60 000 ms have passed since `timestamp`,
fails (returns `false`, storing nothing) when `count` has reached the
configured limit, and otherwise increments the count and persists it.
When the category has no entry in `RATE_LIMIT`, the JS comparison
`data.count >= undefined` is `false`, so the limit check never trips. -/
def checkRateLimit (cfg : ConfigModel) (type : String) (now : Nat)
    (store : RLStore) : Bool × RLStore :=
  let data := store type
  let data := if 60000 < now - data.timestamp then ⟨0, now⟩ else data
  let overLimit :=
    match cfg.rateLimit type with
    | some limit => decide (limit ≤ data.count)
    | none => false
  if overLimit then
    (false, store)
  else
    (true, fun t => if t = type then ⟨data.count + 1, data.timestamp⟩ else store t)

/-! ## API client (`src/frontend/map-places.js`, class `APIClient`) -/

/-- A request body as passed to `APIClient.request`.  `jsonVal n` stands in
for an arbitrary plain JS object (the payload is opaque to the client). -/
inductive ReqBody
  | formData (parts : List (String × String))
  | urlParams (params : List (String × String))
  | jsonVal (n : Nat)
  deriving Repr, DecidableEq

/-- The body actually placed on the outgoing `fetch` configuration.
`jsonOf n` records that the body was produced by `JSON.stringify`;
the other two constructors record a body passed through unchanged. -/
inductive SentBody
  | fromFormData (parts : List (String × String))
  | fromUrlParams (params : List (String × String))
  | jsonOf (n : Nat)
  deriving Repr, DecidableEq

/-- The outgoing request configuration assembled by `APIClient.request`
before `fetch` (map-places.js lines 503-527). -/
structure RequestConfig where
  method : String
  contentType : Option String
  authorization : Option String
  body : Option SentBody
  deriving Repr, DecidableEq

/-- Build the `fetch` configuration (map-places.js lines 503-527):
headers start from the forced JSON content-type spread with the caller
headers (`ctOverride` models a caller-supplied content-type), a bearer token is
attached when present, and for non-GET requests a `FormData` body is
attached as-is with the Content-Type header deleted, a `URLSearchParams`
body is attached as-is (header untouched), and any other body is
`JSON.stringify`-ed. -/
def buildRequestConfig (method : String) (data : Option ReqBody)
    (ctOverride : Option String) (authToken : Option String) : RequestConfig :=
  let ct : Option String := some (ctOverride.getD "application/json")
  let auth := authToken.map (fun t => "Bearer " ++ t)
  match data with
  | some b =>
    if method ≠ "GET" then
      match b with
      | .formData parts =>
        { method := method, contentType := none, authorization := auth,
          body := some (.fromFormData parts) }
      | .urlParams params =>
        { method := method, contentType := ct, authorization := auth,
          body := some (.fromUrlParams params) }
      | .jsonVal n =>
        { method := method, contentType := ct, authorization := auth,
          body := some (.jsonOf n) }
    else
      { method := method, contentType := ct, authorization := auth, body := none }
  | none =>
    { method := method, contentType := ct, authorization := auth, body := none }

/-- The `JSON.stringify(data)` text as used in the cache key: `null` stringifies to
`"null"`, `FormData` and `URLSearchParams` objects to `"{}"`, and a plain
object to its JSON text (represented by the stand-in index). -/
def stringifyBody : Option ReqBody → String
  | none => "null"
  | some (.formData _) => "\x7b\x7d"
  | some (.urlParams _) => "\x7b\x7d"
  | some (.jsonVal n) => toString n

/-- The cache key `` `${method}:${url}:${JSON.stringify(data)}` ``. -/
def cacheKey (method url : String) (data : Option ReqBody) : String :=
  method ++ ":" ++ url ++ ":" ++ stringifyBody data

/-- A parsed response value (opaque to the client; stand-in index). -/
abbrev RespValue := Nat

/-- One cache entry: `{data, timestamp}`. -/
structure CacheEntry where
  data : RespValue
  timestamp : Nat
  deriving Repr, DecidableEq

/-- Client state: the `Map` used as response cache (newest binding first,
`Map.get` modelled by first-match lookup) and the rate-limit records in
`localStorage`. -/
structure ClientState where
  cache : List (String × CacheEntry)
  rlStore : RLStore

/-- The outcome of one `fetch`: a response with its HTTP status and parsed
JSON body, a network failure (rejection other than abort), or an abort
fired by the timeout. -/
inductive FetchOutcome
  | success (status : Nat) (body : RespValue)
  | networkError
  | aborted
  deriving Repr, DecidableEq

/-- The error taxonomy surfaced by `APIClient.request`. -/
inductive ApiError
  | rateLimitExceeded (category : String)
  | httpError (status : Nat)
  | requestTimeout
  | networkError
  deriving Repr, DecidableEq

/-- Whether an outcome is the rate-limit rejection. -/
def isRateLimitError : Except ApiError RespValue → Bool
  | .error (.rateLimitExceeded _) => true
  | _ => false

deriving instance DecidableEq for Except

/-- What one `request` call produced: the result and, when a network call
was actually issued, the configuration it was sent with (`sent = none`
means no network call was made). -/
structure ReqResult where
  result : Except ApiError RespValue
  sent : Option RequestConfig
  deriving Repr, DecidableEq

/-- JS `response.ok`: status in the 2xx-3xx success range `[200, 300)`. -/
def responseOk (status : Nat) : Bool := 200 ≤ status && status < 300

/-- JS `String.prototype.includes(pat)` on the character lists: `pat` occurs
as a contiguous run somewhere in the list. -/
def charsContain (pat : List Char) : List Char → Bool
  | [] => pat.isEmpty
  | c :: rest => pat.isPrefixOf (c :: rest) || charsContain pat rest

/-- Model of `APIClient.getOperationType(endpoint)`: `search` for location search
paths, `routes` for route paths, otherwise `general`. -/
def getOperationType (endpoint : String) : String :=
  if charsContain "/locations/search".data endpoint.data then "search"
  else if charsContain "/routes".data endpoint.data then "routes"
  else "general"

/-- The `fetch`/response part of `APIClient.request` (map-places.js lines
541-576): a non-2xx response throws `HTTP <status>`, an abort throws
`Request timeout`, any other rejection is rethrown as a network failure,
and a successful GET response is written into the cache. -/
def performFetch (method key : String) (cfgSent : RequestConfig) (now : Nat)
    (outcome : FetchOutcome) (st : ClientState) : ReqResult × ClientState :=
  match outcome with
  | .networkError => ({ result := .error .networkError, sent := some cfgSent }, st)
  | .aborted => ({ result := .error .requestTimeout, sent := some cfgSent }, st)
  | .success status body =>
    if responseOk status then
      let st :=
        if method = "GET" then
          { st with cache := (key, ⟨body, now⟩) :: st.cache }
        else st
      ({ result := .ok body, sent := some cfgSent }, st)
    else
      ({ result := .error (.httpError status), sent := some cfgSent }, st)

/-- Model of `APIClient.request(method, endpoint, data, headers)` (map-places.js
lines 496-577).

Order of operations, as in the source: resolve the operation category and
run the rate limiter (throwing without any network activity when it
refuses); build the request configuration; for GET requests consult the
cache and return the stored value when it is younger than
`CACHE_DURATION`; otherwise perform the fetch.  `now` is the value of
`Date.now()` during the call and `outcome` the behaviour of the network. -/
def request (cfg : ConfigModel) (method endpoint : String) (data : Option ReqBody)
    (ctOverride : Option String) (authToken : Option String) (now : Nat)
    (outcome : FetchOutcome) (st : ClientState) : ReqResult × ClientState :=
  let opType := getOperationType endpoint
  let rl := checkRateLimit cfg opType now st.rlStore
  let st := { st with rlStore := rl.2 }
  if rl.1 then
    let cfgSent := buildRequestConfig method data ctOverride authToken
    let url := getEndpoint cfg endpoint
    let key := cacheKey method url data
    match (if method = "GET" then st.cache.lookup key else none) with
    | some entry =>
      if now - entry.timestamp < cfg.cacheDuration then
        ({ result := .ok entry.data, sent := none }, st)
      else
        performFetch method key cfgSent now outcome st
    | none => performFetch method key cfgSent now outcome st
  else
    ({ result := .error (.rateLimitExceeded opType), sent := none }, st)

/-- Model of `APIClient.get(endpoint, params)`: serialize the params into a query
string and issue a GET.  `URLSearchParams(params).toString()` is modelled
as `k=v` pairs joined by `&`. -/
def buildGetUrl (endpoint : String) (params : List (String × String)) : String :=
  let query := String.intercalate "&" (params.map (fun p => p.1 ++ "=" ++ p.2))
  if query = "" then endpoint else endpoint ++ "?" ++ query

/-- A sequence of calls through `APIClient.request` with the same method,
endpoint, body and headers; each call carries its `Date.now()` value and
the network behaviour it would observe. -/
def runCalls (cfg : ConfigModel) (method endpoint : String) (data : Option ReqBody)
    (ctOverride : Option String) (authToken : Option String)
    (calls : List (Nat × FetchOutcome)) (st : ClientState) :
    List ReqResult × ClientState :=
  match calls with
  | [] => ([], st)
  | (t, f) :: rest =>
    let out := request cfg method endpoint data ctOverride authToken t f st
    let outs := runCalls cfg method endpoint data ctOverride authToken rest out.2
    (out.1 :: outs.1, outs.2)

/-! ## Error handler (`map-places.js`, class `ErrorHandler`) -/

/-- The structured part of one error-log entry that the model tracks
(the source entry also carries timestamp, stack, user agent and URL). -/
structure ErrorInfo where
  context : String
  message : String
  deriving Repr, DecidableEq

/-- The bound `this.maxLogSize = 100`. -/
def maxLogSize : Nat := 100

/-- Model of `ErrorHandler.log(errorInfo)` (map-places.js lines 411-426): `unshift`
the new entry to the front, `pop` the last (oldest) entry when the log
exceeds `maxLogSize`, and write the first 10 entries
(`this.errorLog.slice(0, 10)`) to `localStorage`.  Returns the new
in-memory log and the snapshot written to durable storage. -/
def errorHandlerLog (info : ErrorInfo) (log : List ErrorInfo) :
    List ErrorInfo × List ErrorInfo :=
  let log := info :: log
  let log := if maxLogSize < log.length then log.dropLast else log
  (log, log.take 10)

/-- An error value reaching `ErrorHandler.handle`: either one of the API
failures of the API client or a plain `Error(message)` thrown by feature code. -/
inductive JsError
  | api (e : ApiError)
  | generic (message : String)
  deriving Repr, DecidableEq

/-- The `error.message` text for each error shape; the errors of the API
client carry the messages built in `map-places.js`/`config.js`, and a
fetch rejection is a `TypeError` with message `Failed to fetch`. -/
def messageFor : JsError → String
  | .api (.rateLimitExceeded c) => "Rate limit exceeded for " ++ c ++ ". Please wait a moment."
  | .api (.httpError status) => "HTTP " ++ toString status ++ ": error"
  | .api .requestTimeout => "Request timeout"
  | .api .networkError => "Failed to fetch"
  | .generic m => m

/-- Test for a fetch rejection: a `TypeError` whose message mentions
`fetch`; only `ApiError.networkError` qualifies. -/
def isFetchTypeError : JsError → Bool
  | .api .networkError => true
  | _ => false

/-- Model of `ErrorHandler.showUserFriendlyError(error, context)` (map-places.js
lines 428-460): the user-visible message chosen by scanning the error
message for keywords and falling back to context-specific wording. -/
def userFriendlyMessage (err : JsError) (context : String) : String :=
  let m := messageFor err
  if isFetchTypeError err then
    "Network connection failed. Please check your internet connection."
  else if charsContain "timeout".data m.data then "Request timed out. Please try again."
  else if charsContain "401".data m.data then "Your session has expired. Please sign in again."
  else if charsContain "403".data m.data then "You do not have permission to perform this action."
  else if charsContain "404".data m.data then "The requested resource was not found."
  else if charsContain "500".data m.data then "Server error. Please try again later."
  else if context = "Login failed" then "Invalid email or password. Please try again."
  else if context = "Registration failed" then
    "Registration failed. Please check your information and try again."
  else if charsContain "Route".data context.data then "Route operation failed. Please try again."
  else if charsContain "Search".data context.data then "Search failed. Please try again."
  else "An unexpected error occurred"

/-! ## Map places manager (`src/unnamed/part_000`, class `MapPlacesManager`) -/

/-- A place as rendered on the map. -/
structure PlaceModel where
  id : Nat
  latitude : Int
  longitude : Int
  category : String
  deriving Repr, DecidableEq

/-- A Leaflet layer on the map, as far as `clearPlaceMarkers` can tell
them apart: a user-place marker carries `placeData` (set by
`addPlaceMarker`), a public-place marker is an `L.Marker` without
`placeData` (made by `addPublicPlaceMarker`), and `otherLayer` stands for
tiles, polylines, route markers and other non-place layers. -/
inductive MapLayer
  | userPlaceMarker (place : PlaceModel)
  | publicPlaceMarker (place : PlaceModel)
  | otherLayer (id : Nat)
  deriving Repr, DecidableEq

/-- The test `layer instanceof L.Marker && layer.placeData`: true exactly for the
markers created by `addPlaceMarker`. -/
def hasPlaceData : MapLayer → Bool
  | .userPlaceMarker _ => true
  | _ => false

/-- Whether a layer is a public-place marker (tracked separately: no
`placeData` tag). -/
def isPublicPlaceMarker : MapLayer → Bool
  | .publicPlaceMarker _ => true
  | _ => false

/-- Model of `MapPlacesManager.addPlaceMarker(place)` (part_000 lines 221-258):
adds one marker to the map, tagged with its backing `placeData`. -/
def addPlaceMarker (place : PlaceModel) (layers : List MapLayer) : List MapLayer :=
  layers ++ [.userPlaceMarker place]

/-- Model of `MapPlacesManager.addPublicPlaceMarker(place)` (part_000 lines
628-658): adds one public-place marker; no `placeData` is attached. -/
def addPublicPlaceMarker (place : PlaceModel) (layers : List MapLayer) : List MapLayer :=
  layers ++ [.publicPlaceMarker place]

/-- Model of `MapPlacesManager.clearPlaceMarkers()` (part_000 lines 316-322):
remove every layer that is an `L.Marker` carrying `placeData`. -/
def clearPlaceMarkers (layers : List MapLayer) : List MapLayer :=
  layers.filter (fun l => !(hasPlaceData l))

/-- Model of `MapPlacesManager.loadUserPlaces()` (part_000 lines 286-314): a no-op
without an authenticated user; otherwise fetch the places of the user and, on
success, clear the existing place markers and add one marker per fetched
place (a failed fetch is caught and leaves the map untouched). -/
def loadUserPlaces (currentUser : Option String)
    (fetched : Except Unit (List PlaceModel)) (layers : List MapLayer) :
    List MapLayer :=
  match currentUser with
  | none => layers
  | some _ =>
    match fetched with
    | .error _ => layers
    | .ok places => places.foldl (fun ls p => addPlaceMarker p ls) (clearPlaceMarkers layers)

/-- Whether the `placeData` of a layer refers to the given place. -/
def referencesPlace (p : PlaceModel) : MapLayer → Bool
  | .userPlaceMarker q => decide (q = p)
  | _ => false

/-! ## Application shell (`src/unnamed/part_001`, class `TravelMateApp`) -/

/-- A route endpoint as stored on `this.startPoint` / `this.endPoint`.
`setAsStartPoint` stores `{latitude, longitude, name}` while the
context-menu `setStartPoint` stores `{lat, lng}` (leaving `latitude`
`undefined`), so both coordinate fields are optional. -/
structure RoutePoint where
  latitude : Option Int
  longitude : Option Int
  deriving Repr, DecidableEq

/-- The polyline drawn for a calculated route. -/
structure RouteLine where
  coords : List (Int × Int)
  color : String
  deriving Repr, DecidableEq

/-- The application-shell state: session, map/route working state, UI
flags, and the rolling error log. -/
structure AppModel where
  currentUser : Option String
  authToken : Option String
  storageToken : Option String
  startPoint : Option RoutePoint
  endPoint : Option RoutePoint
  routeStartMarker : Option (Int × Int)
  routeEndMarker : Option (Int × Int)
  routeLine : Option RouteLine
  markers : List Nat
  addPlaceMode : Bool
  controlsEnabled : Bool
  guestBannerShown : Bool
  sidebarOpen : Bool
  isAuthMode : String
  authModalMode : Option String
  lastStatus : Option (String × String)
  errorLog : List ErrorInfo
  deriving Repr, DecidableEq

/-- Model of `showStatus(message, type)`. -/
def showStatus (s : AppModel) (message type : String) : AppModel :=
  { s with lastStatus := some (message, type) }

/-- Model of `ErrorHandler.handle(error, context)` wired to `window.app`: append a
structured entry to the rolling log and surface the user-friendly message
as an error status. -/
def handleAppError (s : AppModel) (context : String) (err : JsError) : AppModel :=
  let info : ErrorInfo := { context := context, message := messageFor err }
  { s with
    errorLog := (errorHandlerLog info s.errorLog).1,
    lastStatus := some (userFriendlyMessage err context, "error") }

/-- Model of `TravelMateApp.showGuestMode()` (part_001 lines 248-264): clear the
session, show the guest UI and disable controls (which also forces the
places manager out of add-place mode). -/
def showGuestMode (s : AppModel) : AppModel :=
  { s with
    currentUser := none
    authToken := none
    guestBannerShown := true
    controlsEnabled := false
    addPlaceMode := false }

/-- Model of `TravelMateApp.setAuthenticatedUser(user)` (part_001 lines 222-246);
the triggered `loadUserPlaces` render is modelled separately with
`loadUserPlaces`. -/
def setAuthenticatedUser (s : AppModel) (user : String) : AppModel :=
  { s with
    currentUser := some user
    guestBannerShown := false
    controlsEnabled := true
    sidebarOpen := true }

/-- Model of `TravelMateApp.validateToken()` (part_001 lines 98-107): one
`GET /auth/me` request; on success adopt the returned user, on any
failure remove the stored token and fall back to guest mode.  The second
component counts the `/auth/me` requests issued. -/
def validateToken (s : AppModel) (resp : Except ApiError String) : AppModel × Nat :=
  match resp with
  | .ok user => (setAuthenticatedUser s user, 1)
  | .error _ => (showGuestMode { s with storageToken := none }, 1)

/-- Model of `TravelMateApp.checkAuthStatus()` (part_001 lines 82-95): read the
stored token; validate it when present, otherwise go straight to guest
mode without any request. -/
def checkAuthStatus (s : AppModel) (resp : Except ApiError String) : AppModel × Nat :=
  match s.storageToken with
  | some tok => validateToken { s with authToken := some tok } resp
  | none => (showGuestMode s, 0)

/-- Model of `TravelMateApp.clearRouteDisplay()` (part_001 lines 641-657). -/
def clearRouteDisplay (s : AppModel) : AppModel :=
  { s with
    routeStartMarker := none
    routeEndMarker := none
    routeLine := none
    startPoint := none
    endPoint := none }

/-- Model of `TravelMateApp.clearMap()` (part_001 lines 659-664). -/
def clearMap (s : AppModel) : AppModel :=
  showStatus (clearRouteDisplay { s with markers := [] }) "Map cleared" "info"

/-- Model of `TravelMateApp.logout()` (part_001 lines 266-279), happy path of the
`try`: remove the stored token, show guest mode, clear the route display
and the map, and surface the signed-out status. -/
def logout (s : AppModel) : AppModel :=
  showStatus (clearMap (clearRouteDisplay (showGuestMode { s with storageToken := none })))
    "You have been signed out" "info"

/-- Model of `closeAuthModal()`. -/
def closeAuthModal (s : AppModel) : AppModel :=
  { s with authModalMode := none }

/-- Model of `toggleAuthMode()` (part_001 lines 467-470). -/
def toggleAuthMode (s : AppModel) : AppModel :=
  let m := if s.isAuthMode = "login" then "register" else "login"
  { s with isAuthMode := m, authModalMode := some m }

/-- JS `String.prototype.split(sep)` for a one-character separator, on the
character list: `splitOnChar '@' "a@b".data = ["a".data, "b".data]` and
the empty string splits to `[[]]`. -/
def splitOnChar (sep : Char) : List Char → List (List Char)
  | [] => [[]]
  | c :: rest =>
    let r := splitOnChar sep rest
    if c = sep then [] :: r
    else
      match r with
      | h :: t => (c :: h) :: t
      | [] => [[c]]

/-- The JS whitespace class `\s`: tab, line feed, vertical tab, form
feed, carriage return, space, the line/paragraph separators and the
Unicode space separators, and the byte-order mark. -/
def isJsWhitespace (c : Char) : Bool :=
  c = '\t' || c = '\n' || c.toNat = 11 || c.toNat = 12 || c = '\r' || c = ' ' ||
  c.toNat = 0xA0 || c.toNat = 0x1680 || (0x2000 ≤ c.toNat && c.toNat ≤ 0x200A) ||
  c.toNat = 0x2028 || c.toNat = 0x2029 || c.toNat = 0x202F || c.toNat = 0x205F ||
  c.toNat = 0x3000 || c.toNat = 0xFEFF

/-- Model of `TravelMateApp.validateEmail(email)` (part_001 lines 501-504): the
anchored regex `[^\s@]+@[^\s@]+\.[^\s@]+` between `^` and `$`.  A string
matches exactly when it splits at a unique `@` into a nonempty
whitespace-free local part and a nonempty whitespace-free domain that
contains a `.` at an interior position (the classes `[^\s@]` admit dots,
so only one dot needs an interior position). -/
def validateEmail (email : String) : Bool :=
  match splitOnChar '@' email.data with
  | [lp, domain] =>
    !lp.isEmpty && lp.all (fun c => !isJsWhitespace c) &&
    !domain.isEmpty && domain.all (fun c => !isJsWhitespace c) &&
    (domain.drop 1).dropLast.contains '.'
  | _ => false

/-- Model of `TravelMateApp.validatePassword(password)` (part_001 lines 506-508). -/
def validatePassword (password : String) : Bool :=
  password ≠ "" && 6 ≤ password.length

/-- Model of `TravelMateApp.handleLogin(e)` (part_001 lines 135-180): client-side
validation of email shape and non-empty password before any API call,
then `POST /auth/login` (form-encoded), token storage, and
`GET /auth/me`.  Returns the new state and the list of API calls issued
(method, endpoint). -/
def handleLogin (s : AppModel) (email password : String)
    (loginResp : Except ApiError String) (meResp : Except ApiError String) :
    AppModel × List (String × String) :=
  if !validateEmail email then
    (showStatus s "Please enter a valid email address" "error", [])
  else if password = "" then
    (showStatus s "Password is required" "error", [])
  else
    let s := showStatus s "Signing in..." "info"
    match loginResp with
    | .error e => (handleAppError s "Login failed" (.api e), [("POST", "/auth/login")])
    | .ok token =>
      let s := { s with authToken := some token, storageToken := some token }
      match meResp with
      | .error e =>
        (handleAppError s "Login failed" (.api e),
         [("POST", "/auth/login"), ("GET", "/auth/me")])
      | .ok user =>
        let s := closeAuthModal (setAuthenticatedUser s user)
        (showStatus s "Welcome back!" "success",
         [("POST", "/auth/login"), ("GET", "/auth/me")])

/-- Model of `TravelMateApp.handleRegister(e)` (part_001 lines 182-219): validate
name length, email shape and password length before any API call, then
`POST /auth/register`; success directs back to the login form. -/
def handleRegister (s : AppModel) (name email password : String)
    (regResp : Except ApiError Unit) : AppModel × List (String × String) :=
  if name = "" || name.length < 2 then
    (showStatus s "Name must be at least 2 characters long" "error", [])
  else if !validateEmail email then
    (showStatus s "Please enter a valid email address" "error", [])
  else if !validatePassword password then
    (showStatus s "Password must be at least 6 characters long" "error", [])
  else
    let s := showStatus s "Creating account..." "info"
    match regResp with
    | .error e => (handleAppError s "Registration failed" (.api e), [("POST", "/auth/register")])
    | .ok _ =>
      let s := showStatus s "Account created successfully! Please sign in." "success"
      (toggleAuthMode s, [("POST", "/auth/register")])

/-! ## Feature functions (`src/frontend/features.js`) -/

/-- The `/routes/real-route` response geometry. -/
structure RouteGeometry where
  coordinates : List (Int × Int)
  deriving Repr, DecidableEq

/-- The `/routes/real-route` response payload; `distance_km = none`
models an undefined `routeData.distance_km`. -/
structure RouteData where
  distance_km : Option Int
  duration_minutes : Int
  geometry : Option RouteGeometry
  deriving Repr, DecidableEq

/-- Model of `getTransportColor(mode)` (features.js lines 329-336). -/
def getTransportColor (mode : String) : String :=
  if mode = "driving" then "#6366f1"
  else if mode = "cycling" then "#22c55e"
  else if mode = "walking" then "#f59e0b"
  else "#6366f1"

/-- Whether both endpoints are present with defined coordinate fields
(the guard of features.js lines 19-24). -/
def routePointsReady (s : AppModel) : Bool :=
  match s.startPoint, s.endPoint with
  | some sp, some ep =>
    sp.latitude.isSome && sp.longitude.isSome && ep.latitude.isSome && ep.longitude.isSome
  | _, _ => false

/-- The shared `catch` of `calculateRealRoute` (features.js lines 77-84):
hand the error to the error handler (which surfaces an error status),
then remove the route line. -/
def calculateRealRouteCatch (s : AppModel) (err : JsError) : AppModel :=
  let s := handleAppError s "Route calculation failed" err
  { s with routeLine := none }

/-- Model of `calculateRealRoute()` (features.js lines 11-85).  `resp` is the
outcome of the `GET /routes/real-route` call; `.ok none` models a null
payload.  A transport failure or an invalid payload drops into the catch
block; a valid payload first clears the existing polyline, then draws
the (longitude/latitude-swapped) geometry when it is nonempty and
otherwise reports that no route was found. -/
def calculateRealRoute (s : AppModel) (transportMode : String)
    (resp : Except ApiError (Option RouteData)) : AppModel :=
  match s.currentUser with
  | none => { s with authModalMode := some "login" }
  | some _ =>
    if !routePointsReady s then
      showStatus s "Please set both start and end points first" "error"
    else
      let s := showStatus s ("Calculating " ++ transportMode ++ " route...") "info"
      match resp with
      | .error e => calculateRealRouteCatch s (.api e)
      | .ok none => calculateRealRouteCatch s (.generic "Invalid route data received")
      | .ok (some rd) =>
        match rd.distance_km with
        | none => calculateRealRouteCatch s (.generic "Invalid route data received")
        | some _ =>
          let s := { s with routeLine := none }
          match rd.geometry with
          | some g =>
            if 0 < g.coordinates.length then
              let coords := g.coordinates.map (fun c => (c.2, c.1))
              let s := { s with routeLine := some ⟨coords, getTransportColor transportMode⟩ }
              showStatus s "Route calculated" "success"
            else
              showStatus s "No route found - try different points or transport mode" "error"
          | none =>
            showStatus s "No route found - try different points or transport mode" "error"

/-! ## Rate limiter lemmas -/

/-- Within the window and strictly below the limit, the check passes and
the stored counter for the category is incremented, the window start
kept. -/
theorem checkRateLimit_pass (cfg : ConfigModel) (type : String) (now : Nat)
    (store : RLStore) (c w L : Nat) (hs : store type = ⟨c, w⟩)
    (hnr : now ≤ w + 60000) (hL : cfg.rateLimit type = some L) (hc : c < L) :
    (checkRateLimit cfg type now store).1 = true ∧
    (checkRateLimit cfg type now store).2 type = ⟨c + 1, w⟩ := by
  have hr : ¬ 60000 < now - w := by omega
  have hover : ¬ L ≤ c := Nat.not_le.2 hc
  simp [checkRateLimit, hs, hr, hL, hover]

/-- Within the window and at the limit, the check refuses and stores
nothing. -/
theorem checkRateLimit_reject (cfg : ConfigModel) (type : String) (now : Nat)
    (store : RLStore) (c w L : Nat) (hs : store type = ⟨c, w⟩)
    (hnr : now ≤ w + 60000) (hL : cfg.rateLimit type = some L) (hc : L ≤ c) :
    checkRateLimit cfg type now store = (false, store) := by
  have hr : ¬ 60000 < now - w := by omega
  simp [checkRateLimit, hs, hr, hL, hc]

/-- Once more than 60 000 ms have passed since the stored window start,
the counter is reset to zero before the limit comparison, so the check
passes (for a positive limit) and a fresh window with a single call is
stored. -/
theorem checkRateLimit_reset (cfg : ConfigModel) (type : String) (now : Nat)
    (store : RLStore) (c w L : Nat) (hs : store type = ⟨c, w⟩)
    (hr : w + 60000 < now) (hL : cfg.rateLimit type = some L) (hL0 : 0 < L) :
    (checkRateLimit cfg type now store).1 = true ∧
    (checkRateLimit cfg type now store).2 type = ⟨1, now⟩ := by
  have hr' : 60000 < now - w := by omega
  have hover : ¬ L ≤ 0 := by omega
  simp [checkRateLimit, hs, hr', hL, hover]

/-! ## API client lemmas -/

/-- The rate-limit store after a `request` is whatever the rate-limit
check left behind: no other part of the call touches it. -/
theorem request_rlStore_eq (cfg : ConfigModel) (method endpoint : String)
    (data : Option ReqBody) (ct auth : Option String) (now : Nat)
    (f : FetchOutcome) (st : ClientState) :
    (request cfg method endpoint data ct auth now f st).2.rlStore =
      (checkRateLimit cfg (getOperationType endpoint) now st.rlStore).2 := by
  simp only [request, performFetch]
  repeat' split
  all_goals rfl

/-- A refused rate-limit check makes `request` fail with
`RateLimitExceeded` for the category, with no network call and an
unchanged client state. -/
theorem request_rl_refused (cfg : ConfigModel) (method endpoint : String)
    (data : Option ReqBody) (ct auth : Option String) (now : Nat)
    (f : FetchOutcome) (st : ClientState)
    (h : checkRateLimit cfg (getOperationType endpoint) now st.rlStore = (false, st.rlStore)) :
    request cfg method endpoint data ct auth now f st =
      ({ result := .error (.rateLimitExceeded (getOperationType endpoint)), sent := none }, st) := by
  simp only [request]
  rw [h]
  rfl

/-- When the rate-limit check passes, `request` never produces the
rate-limit error (any other failure is a fetch failure). -/
theorem request_pass_not_rl (cfg : ConfigModel) (method endpoint : String)
    (data : Option ReqBody) (ct auth : Option String) (now : Nat)
    (f : FetchOutcome) (st : ClientState)
    (h : (checkRateLimit cfg (getOperationType endpoint) now st.rlStore).1 = true) :
    isRateLimitError (request cfg method endpoint data ct auth now f st).1.result = false := by
  simp only [request, performFetch, h, if_true]
  repeat' split
  all_goals rfl

/-- Running a batch of same-category calls inside one window while the
counter stays below the limit: none of them is refused by the rate
limiter, and each increments the stored counter, the window start kept. -/
theorem runCalls_under_limit
    (cfg : ConfigModel) (cat : String) (L : Nat) (method endpoint : String)
    (data : Option ReqBody) (ct auth : Option String) (w : Nat)
    (hcat : getOperationType endpoint = cat) (hL : cfg.rateLimit cat = some L)
    (calls : List (Nat × FetchOutcome)) :
    ∀ (st : ClientState) (c : Nat),
      st.rlStore cat = ⟨c, w⟩ → c + calls.length ≤ L →
      (∀ p ∈ calls, p.1 ≤ w + 60000) →
      (∀ r ∈ (runCalls cfg method endpoint data ct auth calls st).1,
          isRateLimitError r.result = false) ∧
      (runCalls cfg method endpoint data ct auth calls st).2.rlStore cat
        = ⟨c + calls.length, w⟩ := by
  induction calls with
  | nil =>
    intro st c hst _ _
    simpa [runCalls] using hst
  | cons p rest ih =>
    intro st c hst hle hts
    obtain ⟨t, f⟩ := p
    have ht : t ≤ w + 60000 := hts (t, f) (List.mem_cons_self _ _)
    have hcL : c < L := by
      simp only [List.length_cons] at hle
      omega
    have hpass := checkRateLimit_pass cfg cat t st.rlStore c w L hst ht hL hcL
    have hst1 : (request cfg method endpoint data ct auth t f st).2.rlStore cat
        = ⟨c + 1, w⟩ := by
      rw [request_rlStore_eq, hcat]
      exact hpass.2
    have hrec := ih (request cfg method endpoint data ct auth t f st).2 (c + 1) hst1
      (by simp only [List.length_cons] at hle; omega)
      (fun q hq => hts q (List.mem_cons_of_mem _ hq))
    refine ⟨?_, ?_⟩
    · intro r hr
      simp only [runCalls] at hr
      rcases List.mem_cons.mp hr with h1 | h2
      · rw [h1]
        apply request_pass_not_rl
        rw [hcat]
        exact hpass.1
      · exact hrec.1 r h2
    · simp only [runCalls, List.length_cons]
      rw [hrec.2]
      congr 1
      omega

/-- C1: for every operation category with a configured per-60-second
limit `L`, issuing `L + 1` API-client calls of that category within one
60-second window (counted from the first call) makes exactly the
`(L+1)`-th call fail with the rate-limit error before any network call
is made (`sent = none`, client state untouched), while the first `L`
calls are never refused by the limiter; and once the window has elapsed
the category counter is reset to zero, so the next call passes and
starts a fresh window with count 1. -/
theorem rateLimit_window_spec
    (cfg : ConfigModel) (cat : String) (L : Nat) (method endpoint : String)
    (data : Option ReqBody) (ct auth : Option String)
    (hcat : getOperationType endpoint = cat) (hL : cfg.rateLimit cat = some L)
    (st₀ : ClientState) (h₀ : st₀.rlStore cat = ⟨0, 0⟩)
    (t₁ : Nat) (ht₁ : 60000 < t₁) (f₁ : FetchOutcome)
    (rest : List (Nat × FetchOutcome)) (hlen : rest.length + 1 = L)
    (hrest : ∀ p ∈ rest, p.1 ≤ t₁ + 60000)
    (tNext : Nat) (hNext : tNext ≤ t₁ + 60000) (fNext : FetchOutcome)
    (tLater : Nat) (hLater : t₁ + 60000 < tLater) (fLater : FetchOutcome) :
    (∀ r ∈ (runCalls cfg method endpoint data ct auth ((t₁, f₁) :: rest) st₀).1,
        isRateLimitError r.result = false) ∧
    (runCalls cfg method endpoint data ct auth ((t₁, f₁) :: rest) st₀).2.rlStore cat
      = ⟨L, t₁⟩ ∧
    request cfg method endpoint data ct auth tNext fNext
        (runCalls cfg method endpoint data ct auth ((t₁, f₁) :: rest) st₀).2
      = ({ result := .error (.rateLimitExceeded cat), sent := none },
         (runCalls cfg method endpoint data ct auth ((t₁, f₁) :: rest) st₀).2) ∧
    isRateLimitError (request cfg method endpoint data ct auth tLater fLater
        (runCalls cfg method endpoint data ct auth ((t₁, f₁) :: rest) st₀).2).1.result
      = false ∧
    (request cfg method endpoint data ct auth tLater fLater
        (runCalls cfg method endpoint data ct auth ((t₁, f₁) :: rest) st₀).2).2.rlStore cat
      = ⟨1, tLater⟩ := by
  have hL0 : 0 < L := by omega
  have hreset := checkRateLimit_reset cfg cat t₁ st₀.rlStore 0 0 L h₀ (by omega) hL hL0
  have hst1 : (request cfg method endpoint data ct auth t₁ f₁ st₀).2.rlStore cat
      = ⟨1, t₁⟩ := by
    rw [request_rlStore_eq, hcat]
    exact hreset.2
  have hmain := runCalls_under_limit cfg cat L method endpoint data ct auth t₁ hcat hL
    rest (request cfg method endpoint data ct auth t₁ f₁ st₀).2 1 hst1 (by omega) hrest
  have hfinal : (runCalls cfg method endpoint data ct auth ((t₁, f₁) :: rest) st₀).2.rlStore cat
      = ⟨L, t₁⟩ := by
    simp only [runCalls]
    rw [hmain.2]
    congr 1
    omega
  refine ⟨?_, hfinal, ?_, ?_, ?_⟩
  · intro r hr
    simp only [runCalls] at hr
    rcases List.mem_cons.mp hr with h1 | h2
    · rw [h1]
      apply request_pass_not_rl
      rw [hcat]
      exact hreset.1
    · exact hmain.1 r h2
  · have hrej := checkRateLimit_reject cfg cat tNext
      (runCalls cfg method endpoint data ct auth ((t₁, f₁) :: rest) st₀).2.rlStore
      L t₁ L hfinal hNext hL le_rfl
    have := request_rl_refused cfg method endpoint data ct auth tNext fNext
      (runCalls cfg method endpoint data ct auth ((t₁, f₁) :: rest) st₀).2
      (by rw [hcat]; exact hrej)
    rw [this, hcat]
  · apply request_pass_not_rl
    rw [hcat]
    exact (checkRateLimit_reset cfg cat tLater _ L t₁ L hfinal hLater hL hL0).1
  · rw [request_rlStore_eq, hcat]
    exact (checkRateLimit_reset cfg cat tLater _ L t₁ L hfinal hLater hL hL0).2

/-- Witness for C1: the development configuration `search` limit of 10,
eleven search calls in one window starting at `t₁ = 100000`, and a
twelfth call after the window has elapsed. -/
theorem rateLimit_window_spec_witness :
    (60000 < 100000 ∧ developmentConfig.rateLimit "search" = some 10) ∧
    (runCalls developmentConfig "GET" "/locations/search" none none none
        ((100000, FetchOutcome.success 200 7)
          :: List.replicate 9 (100001, FetchOutcome.success 200 7))
        ⟨[], RLStore.empty⟩).2.rlStore "search" = ⟨10, 100000⟩ ∧
    (request developmentConfig "GET" "/locations/search" none none none 100002
        (FetchOutcome.success 200 7)
        (runCalls developmentConfig "GET" "/locations/search" none none none
          ((100000, FetchOutcome.success 200 7)
            :: List.replicate 9 (100001, FetchOutcome.success 200 7))
          ⟨[], RLStore.empty⟩).2).1
      = { result := .error (.rateLimitExceeded "search"), sent := none } ∧
    (request developmentConfig "GET" "/locations/search" none none none 170000
        (FetchOutcome.success 200 7)
        (runCalls developmentConfig "GET" "/locations/search" none none none
          ((100000, FetchOutcome.success 200 7)
            :: List.replicate 9 (100001, FetchOutcome.success 200 7))
          ⟨[], RLStore.empty⟩).2).2.rlStore "search" = ⟨1, 170000⟩ := by
  have h := rateLimit_window_spec developmentConfig "search" 10 "GET" "/locations/search"
    none none none (by decide) (by decide) ⟨[], RLStore.empty⟩ rfl
    100000 (by decide) (.success 200 7)
    (List.replicate 9 (100001, .success 200 7)) (by decide) (by decide)
    100002 (by decide) (.success 200 7) 170000 (by decide) (.success 200 7)
  exact ⟨⟨by decide, by decide⟩, h.2.1,
    congrArg Prod.fst h.2.2.1, h.2.2.2.2⟩

/-- Whatever the network does, `performFetch` records that a network call
was issued with the assembled configuration. -/
theorem performFetch_sent (method key : String) (c : RequestConfig) (now : Nat)
    (f : FetchOutcome) (st : ClientState) :
    (performFetch method key c now f st).1.sent = some c := by
  cases f <;> simp only [performFetch]
  all_goals (repeat' split)
  all_goals rfl

/-- C2: for a pair of identical GET requests (same method, URL and
params, built by `APIClient.get` via `buildGetUrl`) that the rate
limiter admits, with no prior cache entry: the first call issues the one
network call and succeeds with the fetched value; a second identical
call within `cacheDuration` is served the stored value unchanged with no
network call; a second identical call spaced more than `cacheDuration`
later issues a network call again. -/
theorem cache_spec (cfg : ConfigModel) (endpoint : String)
    (params : List (String × String)) (auth : Option String) (st : ClientState)
    (v status : Nat) (hok : responseOk status = true)
    (t₁ t₂ : Nat) (f₂ : FetchOutcome)
    (hmiss : st.cache.lookup
      (cacheKey "GET" (getEndpoint cfg (buildGetUrl endpoint params)) none) = none)
    (h1 : (checkRateLimit cfg (getOperationType (buildGetUrl endpoint params)) t₁
            st.rlStore).1 = true)
    (h2 : (checkRateLimit cfg (getOperationType (buildGetUrl endpoint params)) t₂
            (checkRateLimit cfg (getOperationType (buildGetUrl endpoint params)) t₁
              st.rlStore).2).1 = true) :
    (request cfg "GET" (buildGetUrl endpoint params) none none auth t₁
        (.success status v) st).1
      = { result := .ok v, sent := some (buildRequestConfig "GET" none none auth) } ∧
    (t₂ - t₁ < cfg.cacheDuration →
      (request cfg "GET" (buildGetUrl endpoint params) none none auth t₂ f₂
          (request cfg "GET" (buildGetUrl endpoint params) none none auth t₁
            (.success status v) st).2).1
        = { result := .ok v, sent := none }) ∧
    (cfg.cacheDuration < t₂ - t₁ →
      (request cfg "GET" (buildGetUrl endpoint params) none none auth t₂ f₂
          (request cfg "GET" (buildGetUrl endpoint params) none none auth t₁
            (.success status v) st).2).1.sent
        = some (buildRequestConfig "GET" none none auth)) := by
  have e1 : request cfg "GET" (buildGetUrl endpoint params) none none auth t₁
      (.success status v) st
      = ({ result := .ok v, sent := some (buildRequestConfig "GET" none none auth) },
         ⟨(cacheKey "GET" (getEndpoint cfg (buildGetUrl endpoint params)) none, ⟨v, t₁⟩)
            :: st.cache,
          (checkRateLimit cfg (getOperationType (buildGetUrl endpoint params)) t₁
            st.rlStore).2⟩) := by
    simp only [request, h1, if_true, hmiss, performFetch, hok]
  refine ⟨by rw [e1], ?_, ?_⟩
  · intro hlt
    rw [e1]
    simp only [request, h2, if_true, List.lookup, beq_self_eq_true, hlt]
  · intro hgt
    have hlt : ¬ (t₂ - t₁ < cfg.cacheDuration) := by omega
    rw [e1]
    simp only [request, h2, if_true, List.lookup, beq_self_eq_true, hlt]
    simp [performFetch_sent]

/-- Witness for C2: two identical GETs of `/auth/me` (category `general`,
no configured limit, so the limiter always admits) one millisecond apart
in the development configuration. -/
theorem cache_spec_witness :
    responseOk 200 = true ∧
    (request developmentConfig "GET" (buildGetUrl "/auth/me" []) none none none 100000
        (.success 200 7) ⟨[], RLStore.empty⟩).1
      = { result := .ok 7, sent := some (buildRequestConfig "GET" none none none) } ∧
    (request developmentConfig "GET" (buildGetUrl "/auth/me" []) none none none 100001
        FetchOutcome.networkError
        (request developmentConfig "GET" (buildGetUrl "/auth/me" []) none none none 100000
          (.success 200 7) ⟨[], RLStore.empty⟩).2).1
      = { result := .ok 7, sent := none } := by
  have h := cache_spec developmentConfig "/auth/me" [] none ⟨[], RLStore.empty⟩
    7 200 (by decide) 100000 100001 FetchOutcome.networkError (by decide) (by decide) (by decide)
  exact ⟨by decide, h.1, h.2.1 (by decide)⟩

/-- C9 (implicit): in `APIClient.request` the rate-limit check runs, and
increments the category counter, before the cache is consulted.  For a
GET request whose identical predecessor is still cached and fresh, no
network call is made either way; below the cap the call is served from
cache yet still consumes one unit of rate-limit budget; at the cap it
fails with the rate-limit error even though the cached response could
have been served without any network call. -/
theorem rateLimit_before_cache_spec (cfg : ConfigModel) (endpoint : String)
    (ct auth : Option String) (st : ClientState) (f : FetchOutcome) (now : Nat)
    (v tc : Nat)
    (hhit : st.cache.lookup (cacheKey "GET" (getEndpoint cfg endpoint) none)
      = some ⟨v, tc⟩)
    (hfresh : now - tc < cfg.cacheDuration)
    (c w L : Nat) (hs : st.rlStore (getOperationType endpoint) = ⟨c, w⟩)
    (hnr : now ≤ w + 60000) (hL : cfg.rateLimit (getOperationType endpoint) = some L) :
    (request cfg "GET" endpoint none ct auth now f st).1.sent = none ∧
    (c < L →
      (request cfg "GET" endpoint none ct auth now f st).1.result = .ok v ∧
      (request cfg "GET" endpoint none ct auth now f st).2.rlStore
        (getOperationType endpoint) = ⟨c + 1, w⟩) ∧
    (L ≤ c →
      (request cfg "GET" endpoint none ct auth now f st).1.result
        = .error (.rateLimitExceeded (getOperationType endpoint))) := by
  by_cases hcase : c < L
  · have hpass := checkRateLimit_pass cfg (getOperationType endpoint) now st.rlStore
      c w L hs hnr hL hcase
    have e : (request cfg "GET" endpoint none ct auth now f st).1
        = { result := .ok v, sent := none } := by
      simp only [request, hpass.1, if_true, hhit, hfresh]
    refine ⟨by rw [e], fun _ => ⟨by rw [e], ?_⟩, fun hge => absurd hcase (by omega)⟩
    rw [request_rlStore_eq]
    exact hpass.2
  · have hge : L ≤ c := Nat.not_lt.1 hcase
    have hrej := checkRateLimit_reject cfg (getOperationType endpoint) now st.rlStore
      c w L hs hnr hL hge
    have e := request_rl_refused cfg "GET" endpoint none ct auth now f st hrej
    exact ⟨by rw [e], fun hlt => absurd hlt hcase, fun _ => by rw [e]⟩

/-- Witness for C9: a fresh cached `/routes/` response in the development
configuration with the `routes` counter one below, and then at, its
limit of 20. -/
theorem rateLimit_before_cache_spec_witness :
    (19 < 20 ∧ developmentConfig.rateLimit "routes" = some 20) ∧
    (request developmentConfig "GET" "/routes/" none none none 100000
        FetchOutcome.networkError
        ⟨[("GET:http://localhost:8088/routes/:null", ⟨9, 99000⟩)],
         fun t => if t = "routes" then ⟨19, 95000⟩ else ⟨0, 0⟩⟩).1
      = { result := .ok 9, sent := none } ∧
    (request developmentConfig "GET" "/routes/" none none none 100000
        FetchOutcome.networkError
        ⟨[("GET:http://localhost:8088/routes/:null", ⟨9, 99000⟩)],
         fun t => if t = "routes" then ⟨19, 95000⟩ else ⟨0, 0⟩⟩).2.rlStore "routes"
      = ⟨20, 95000⟩ ∧
    (request developmentConfig "GET" "/routes/" none none none 100000
        FetchOutcome.networkError
        ⟨[("GET:http://localhost:8088/routes/:null", ⟨9, 99000⟩)],
         fun t => if t = "routes" then ⟨20, 95000⟩ else ⟨0, 0⟩⟩).1.result
      = .error (.rateLimitExceeded "routes") := by
  have hBelow := rateLimit_before_cache_spec developmentConfig "/routes/" none none
    ⟨[("GET:http://localhost:8088/routes/:null", ⟨9, 99000⟩)],
     fun t => if t = "routes" then ⟨19, 95000⟩ else ⟨0, 0⟩⟩
    FetchOutcome.networkError 100000 9 99000 (by decide) (by decide)
    19 95000 20 (by decide) (by decide) (by decide)
  have hAt := rateLimit_before_cache_spec developmentConfig "/routes/" none none
    ⟨[("GET:http://localhost:8088/routes/:null", ⟨9, 99000⟩)],
     fun t => if t = "routes" then ⟨20, 95000⟩ else ⟨0, 0⟩⟩
    FetchOutcome.networkError 100000 9 99000 (by decide) (by decide)
    20 95000 20 (by decide) (by decide) (by decide)
  refine ⟨⟨by decide, by decide⟩, ?_, ?_, hAt.2.2 (by decide)⟩
  · have h1 := hBelow.1
    have h2 := (hBelow.2.1 (by decide)).1
    cases e : (request developmentConfig "GET" "/routes/" none none none 100000
        FetchOutcome.networkError
        ⟨[("GET:http://localhost:8088/routes/:null", ⟨9, 99000⟩)],
         fun t => if t = "routes" then ⟨19, 95000⟩ else ⟨0, 0⟩⟩).1 with
    | mk result sent =>
      rw [e] at h1 h2
      simp only at h1 h2
      rw [h1, h2]
  · exact (hBelow.2.1 (by decide)).2

/-! ## Request body handling (C3) -/

/-- Whether the assembled configuration carries a `JSON.stringify`-ed
body. -/
def isJsonSent (c : RequestConfig) : Bool :=
  match c.body with
  | some (.jsonOf _) => true
  | _ => false

/-- C3 counterexample: a POST with a `URLSearchParams` body (exactly what
`handleLogin` sends to `/auth/login`) is not serialized as JSON — it is
passed through unchanged, and the forced JSON content-type header is not
even removed — refuting the claim that every non-GET body other than
`FormData` is serialized and sent as JSON. -/
theorem nonGetBody_counterexample :
    (buildRequestConfig "POST" (some (ReqBody.urlParams [("username", "u")])) none none).body
      = some (SentBody.fromUrlParams [("username", "u")]) ∧
    isJsonSent (buildRequestConfig "POST" (some (ReqBody.urlParams [("username", "u")])) none none)
      = false ∧
    (buildRequestConfig "POST" (some (ReqBody.urlParams [("username", "u")])) none none).contentType
      = some "application/json" := by
  refine ⟨rfl, rfl, rfl⟩

/-- C3 (amended): for every non-GET request, a `FormData` body is sent
as-is with the forced JSON content-type header removed; a
`URLSearchParams` body is also sent as-is but keeps the (possibly
overridden) content-type header; and every other body is serialized and
sent as JSON. -/
theorem nonGetBody_spec (method : String) (hm : method ≠ "GET")
    (ct auth : Option String) :
    (∀ parts, buildRequestConfig method (some (.formData parts)) ct auth =
      { method := method, contentType := none,
        authorization := auth.map (fun t => "Bearer " ++ t),
        body := some (.fromFormData parts) }) ∧
    (∀ ps, (buildRequestConfig method (some (.urlParams ps)) ct auth).body
        = some (.fromUrlParams ps) ∧
      (buildRequestConfig method (some (.urlParams ps)) ct auth).contentType
        = some (ct.getD "application/json")) ∧
    (∀ n, (buildRequestConfig method (some (.jsonVal n)) ct auth).body
        = some (.jsonOf n)) := by
  refine ⟨fun parts => ?_, fun ps => ⟨?_, ?_⟩, fun n => ?_⟩ <;>
    simp [buildRequestConfig, hm]

/-- Witness for C3 (amended): a POST carrying each of the three body
shapes. -/
theorem nonGetBody_spec_witness :
    ("POST" ≠ "GET") ∧
    buildRequestConfig "POST" (some (.formData [("photo", "img")])) none (some "tok") =
      { method := "POST", contentType := none, authorization := some "Bearer tok",
        body := some (.fromFormData [("photo", "img")]) } ∧
    (buildRequestConfig "POST" (some (.jsonVal 3)) none none).body = some (.jsonOf 3) := by
  have h := nonGetBody_spec "POST" (by decide) none (some "tok")
  exact ⟨by decide, h.1 [("photo", "img")],
    (nonGetBody_spec "POST" (by decide) none none).2.2 3⟩

/-! ## Marker lifecycle (C4) -/

/-- Re-adding markers place by place appends them in fetch order. -/
theorem foldl_addPlaceMarker (places : List PlaceModel) (acc : List MapLayer) :
    places.foldl (fun ls p => addPlaceMarker p ls) acc
      = acc ++ places.map MapLayer.userPlaceMarker := by
  induction places generalizing acc with
  | nil => simp
  | cons p rest ih =>
    rw [List.foldl_cons, ih]
    simp [addPlaceMarker]

/-- C4: for a successful fetch of the user places, `loadUserPlaces`
first removes every marker tagged with `placeData` and then adds exactly
one marker per fetched place (in order); hence a place omitted from the
fetch result has zero markers referencing it afterwards; public-place
markers (no `placeData`) are left exactly as they were; and the whole
operation is a no-op when no user is authenticated. -/
theorem loadUserPlaces_spec (layers : List MapLayer) (places : List PlaceModel)
    (u : String) :
    loadUserPlaces (some u) (.ok places) layers
      = clearPlaceMarkers layers ++ places.map MapLayer.userPlaceMarker ∧
    (∀ p : PlaceModel, p ∉ places →
      (loadUserPlaces (some u) (.ok places) layers).countP (referencesPlace p) = 0) ∧
    (loadUserPlaces (some u) (.ok places) layers).filter isPublicPlaceMarker
      = layers.filter isPublicPlaceMarker ∧
    (∀ fetched, loadUserPlaces none fetched layers = layers) := by
  have hmain : loadUserPlaces (some u) (.ok places) layers
      = clearPlaceMarkers layers ++ places.map MapLayer.userPlaceMarker := by
    simp [loadUserPlaces, foldl_addPlaceMarker]
  refine ⟨hmain, ?_, ?_, fun fetched => rfl⟩
  · intro p hp
    rw [hmain, List.countP_eq_zero]
    intro l hl
    rcases List.mem_append.mp hl with hcl | hmap
    · rcases List.mem_filter.mp hcl with ⟨_, hnd⟩
      cases l <;> simp_all [referencesPlace, hasPlaceData]
    · rcases List.mem_map.mp hmap with ⟨q, hq, rfl⟩
      simp only [referencesPlace, decide_eq_true_eq]
      intro hqe
      exact hp (hqe ▸ hq)
  · rw [hmain, List.filter_append]
    have h2 : (places.map MapLayer.userPlaceMarker).filter isPublicPlaceMarker = [] := by
      rw [List.filter_eq_nil_iff]
      intro l hl
      rcases List.mem_map.mp hl with ⟨q, _, rfl⟩
      simp [isPublicPlaceMarker]
    rw [h2, List.append_nil, clearPlaceMarkers, List.filter_filter]
    apply List.filter_congr
    intro l _
    cases l <;> rfl

/-- Witness for C4: one stale user marker, one public marker and a tile
layer; the fetch returns a single different place. -/
theorem loadUserPlaces_spec_witness :
    (⟨1, 44, 20, "museum"⟩ : PlaceModel) ∉ [(⟨2, 45, 21, "nature"⟩ : PlaceModel)] ∧
    loadUserPlaces (some "alice") (.ok [⟨2, 45, 21, "nature"⟩])
        [.userPlaceMarker ⟨1, 44, 20, "museum"⟩, .publicPlaceMarker ⟨7, 50, 8, "beach"⟩,
         .otherLayer 0]
      = [.publicPlaceMarker ⟨7, 50, 8, "beach"⟩, .otherLayer 0,
         .userPlaceMarker ⟨2, 45, 21, "nature"⟩] ∧
    (loadUserPlaces (some "alice") (.ok [⟨2, 45, 21, "nature"⟩])
        [.userPlaceMarker ⟨1, 44, 20, "museum"⟩, .publicPlaceMarker ⟨7, 50, 8, "beach"⟩,
         .otherLayer 0]).countP (referencesPlace ⟨1, 44, 20, "museum"⟩) = 0 := by
  have h := loadUserPlaces_spec
    [.userPlaceMarker ⟨1, 44, 20, "museum"⟩, .publicPlaceMarker ⟨7, 50, 8, "beach"⟩,
     .otherLayer 0]
    [⟨2, 45, 21, "nature"⟩] "alice"
  exact ⟨by decide, by decide, h.2.1 ⟨1, 44, 20, "museum"⟩ (by decide)⟩

/-! ## Route calculation failure (C5) -/

/-- C5: when both endpoints are set (with defined coordinates) and the
routing call either fails in transport or returns a payload with no (or
empty) route geometry, `calculateRealRoute` removes any previously drawn
polyline, surfaces an error status message, and leaves the start and end
points unchanged. -/
theorem calculateRealRoute_failure_spec (s : AppModel) (u mode : String)
    (resp : Except ApiError (Option RouteData))
    (hu : s.currentUser = some u) (hpts : routePointsReady s = true)
    (hfail : (∃ e, resp = .error e) ∨
      (∃ rd d, resp = .ok (some rd) ∧ rd.distance_km = some d ∧
        (rd.geometry = none ∨ ∃ g, rd.geometry = some g ∧ g.coordinates = []))) :
    (calculateRealRoute s mode resp).routeLine = none ∧
    (calculateRealRoute s mode resp).startPoint = s.startPoint ∧
    (calculateRealRoute s mode resp).endPoint = s.endPoint ∧
    (∃ m, (calculateRealRoute s mode resp).lastStatus = some (m, "error")) := by
  rcases hfail with ⟨e, rfl⟩ | ⟨rd, d, rfl, hd, hgeom⟩
  · simp [calculateRealRoute, hu, hpts, calculateRealRouteCatch, handleAppError, showStatus]
  · rcases hgeom with hno | ⟨g, hg, hcoords⟩
    · simp [calculateRealRoute, hu, hpts, hd, hno, showStatus]
    · simp [calculateRealRoute, hu, hpts, hd, hg, hcoords, showStatus]

/-- A concrete authenticated state with both endpoints set and a route
line drawn, used as witness input. -/
def readyState : AppModel where
  currentUser := some "alice"
  authToken := some "tok"
  storageToken := some "tok"
  startPoint := some ⟨some 44, some 20⟩
  endPoint := some ⟨some 45, some 21⟩
  routeStartMarker := some (44, 20)
  routeEndMarker := some (45, 21)
  routeLine := some ⟨[(44, 20), (45, 21)], "#6366f1"⟩
  markers := [1]
  addPlaceMode := false
  controlsEnabled := true
  guestBannerShown := false
  sidebarOpen := true
  isAuthMode := "login"
  authModalMode := none
  lastStatus := none
  errorLog := []

/-- Witness for C5: an authenticated session with both endpoints set, one
transport failure and one zero-route response. -/
theorem calculateRealRoute_failure_spec_witness :
    (routePointsReady readyState = true) ∧
    (calculateRealRoute readyState "driving" (.error .networkError)).routeLine = none ∧
    (calculateRealRoute readyState "driving"
        (.ok (some ⟨some 12, 30, some ⟨[]⟩⟩))).routeLine = none ∧
    (calculateRealRoute readyState "driving"
        (.ok (some ⟨some 12, 30, some ⟨[]⟩⟩))).lastStatus
      = some ("No route found - try different points or transport mode", "error") ∧
    (calculateRealRoute readyState "driving" (.error .networkError)).startPoint
      = readyState.startPoint := by
  have h1 := calculateRealRoute_failure_spec readyState "alice" "driving"
    (.error .networkError) rfl rfl (Or.inl ⟨.networkError, rfl⟩)
  have h2 := calculateRealRoute_failure_spec readyState "alice" "driving"
    (.ok (some ⟨some 12, 30, some ⟨[]⟩⟩)) rfl rfl
    (Or.inr ⟨⟨some 12, 30, some ⟨[]⟩⟩, 12, rfl, rfl, Or.inr ⟨⟨[]⟩, rfl, rfl⟩⟩)
  exact ⟨rfl, h1.1, h2.1, by decide, h1.2.1⟩

/-! ## Client-side validation (C6) -/

/-- C6: for every email string failing the validation regex, both
`handleLogin` and `handleRegister` stop with a client-side validation
error status and issue no network call whatsoever (the API client is
never invoked, whatever the backend would have answered). -/
theorem invalidEmail_no_network (s : AppModel) (email password name : String)
    (loginResp meResp : Except ApiError String) (regResp : Except ApiError Unit)
    (h : validateEmail email = false) :
    (handleLogin s email password loginResp meResp).2 = [] ∧
    (handleLogin s email password loginResp meResp).1.lastStatus
      = some ("Please enter a valid email address", "error") ∧
    (handleRegister s name email password regResp).2 = [] ∧
    (∃ m, (handleRegister s name email password regResp).1.lastStatus
      = some (m, "error")) := by
  refine ⟨?_, ?_, ?_, ?_⟩
  · simp [handleLogin, h]
  · simp [handleLogin, h, showStatus]
  · unfold handleRegister
    split
    · rfl
    · simp [h]
  · unfold handleRegister
    split
    · exact ⟨_, rfl⟩
    · simp only [h, Bool.not_false, if_true]
      exact ⟨_, rfl⟩

/-- Witness for C6: the email `"not-an-email"` (no `@`). -/
theorem invalidEmail_no_network_witness :
    validateEmail "not-an-email" = false ∧
    (handleLogin readyState "not-an-email" "secret123" (.ok "tok") (.ok "alice")).2 = [] ∧
    (handleRegister readyState "Alice" "not-an-email" "secret123" (.ok ())).2 = [] := by
  have h := invalidEmail_no_network readyState "not-an-email" "secret123" "Alice"
    (.ok "tok") (.ok "alice") (.ok ()) (by decide)
  exact ⟨by decide, h.1, h.2.2.1⟩

/-! ## Token validation fallback (C7) -/

/-- C7: at startup with a stored token present, a failing `GET /auth/me`
(401 or network failure alike) falls back to guest mode — `currentUser`
and `authToken` cleared — removes the stored token from durable storage,
and issues exactly one validation request (no retry). -/
theorem validateToken_failure_spec (s : AppModel) (tok : String) (e : ApiError)
    (h : s.storageToken = some tok) :
    (checkAuthStatus s (.error e)).1.currentUser = none ∧
    (checkAuthStatus s (.error e)).1.authToken = none ∧
    (checkAuthStatus s (.error e)).1.storageToken = none ∧
    (checkAuthStatus s (.error e)).2 = 1 := by
  simp [checkAuthStatus, h, validateToken, showGuestMode]

/-- Witness for C7: a state holding a stored token whose validation
answers 401. -/
theorem validateToken_failure_spec_witness :
    readyState.storageToken = some "tok" ∧
    (checkAuthStatus readyState (.error (.httpError 401))).1.currentUser = none ∧
    (checkAuthStatus readyState (.error (.httpError 401))).1.storageToken = none ∧
    (checkAuthStatus readyState (.error (.httpError 401))).2 = 1 := by
  have h := validateToken_failure_spec readyState "tok" (.httpError 401) rfl
  exact ⟨rfl, h.1, h.2.2.1, h.2.2.2⟩

/-! ## Logout idempotence (C8) -/

/-- C8: `logout()` is idempotent — from any application state, calling it
twice in a row yields exactly the same guest-mode end state (token
removed, user cleared, markers and route display cleared, same status
message) as calling it once; being a total function of the state, the
second call raises no error. -/
theorem logout_idempotent (s : AppModel) : logout (logout s) = logout s := rfl

/-! ## Error log invariant (C10) -/

/-- C10: each handled error keeps the in-memory log at no more than 100
entries, ordered newest-first — the new entry is prepended and, once the
bound would be exceeded, the oldest entry is evicted (the log is the
100-entry prefix of `new :: old`) — and at most the 10 newest entries
are written to durable storage. -/
theorem errorLog_bound_spec (info : ErrorInfo) (log : List ErrorInfo)
    (h : log.length ≤ maxLogSize) :
    (errorHandlerLog info log).1 = (info :: log).take maxLogSize ∧
    (errorHandlerLog info log).1.length ≤ maxLogSize ∧
    (errorHandlerLog info log).2 = (errorHandlerLog info log).1.take 10 := by
  have hsplit : (errorHandlerLog info log).1 = (info :: log).take maxLogSize := by
    simp only [errorHandlerLog, List.length_cons]
    by_cases hc : maxLogSize < log.length + 1
    · have h100 : log.length = maxLogSize := by omega
      simp only [hc, if_true, List.dropLast_eq_take, List.length_cons]
      simp [h100]
    · simp only [hc, if_false]
      rw [List.take_of_length_le (by simp; omega)]
  refine ⟨hsplit, ?_, rfl⟩
  rw [hsplit]
  exact List.length_take_le maxLogSize (info :: log)

/-- Witness for C10: a full 100-entry log receiving one more entry. -/
theorem errorLog_bound_spec_witness :
    (List.replicate 100 (⟨"ctx", "old"⟩ : ErrorInfo)).length ≤ maxLogSize ∧
    (errorHandlerLog ⟨"Login failed", "HTTP 401"⟩
        (List.replicate 100 ⟨"ctx", "old"⟩)).1
      = (⟨"Login failed", "HTTP 401"⟩ :: List.replicate 100 (⟨"ctx", "old"⟩ : ErrorInfo)).take 100 ∧
    (errorHandlerLog ⟨"Login failed", "HTTP 401"⟩
        (List.replicate 100 ⟨"ctx", "old"⟩)).1.length ≤ 100 := by
  have h := errorLog_bound_spec ⟨"Login failed", "HTTP 401"⟩
    (List.replicate 100 ⟨"ctx", "old"⟩) (by decide)
  exact ⟨by decide, h.1, h.2.1⟩

end TravelMate
